import Mathlib

/-!
Verification of the upload/status/retrieval client workflow of the
BA-Document-Generator Streamlit frontend (src/app.py), shallowly embedded
in Lean 4.

Modelling conventions:
  * A `requests.get`/`requests.post` call is modelled by an `HttpResult β`:
    either the call raises (network failure), or it returns a response with
    a status code, a body that `response.json()` parses to a `β` (or raises,
    for a malformed body), and raw `content` bytes.
  * Python exception flow is modelled in `Except String`: a `tryCatch`
    combinator mirrors each try/except block of the source.
  * Bytes are `List Nat`; Python byte-string truthiness (`if pdf_content:`)
    is modelled explicitly.
  * Streamlit calls (`st.write`, `st.error`, ...) only render text; they are
    not modelled as effects.
-/

namespace BADoc

/-- Result of one HTTP call made with the `requests` library: the call either
raises an exception (timeout, connection refused, ...) or yields a response
carrying a status code, a JSON body that parses to a `β` or raises on
`response.json()`, and the raw `content` bytes. -/
inductive HttpResult (β : Type) where
  | raises (e : String)
  | response (status : Nat) (body : Except String β) (content : List Nat)
deriving Repr

/-- Decides whether an `HttpResult` is a response with status code exactly 200. -/
def respStatus200 {β : Type} : HttpResult β → Bool
  | HttpResult.raises _ => false
  | HttpResult.response s _ _ => s == 200

/-- Python try/except: run the body; on an exception run the handler. -/
def tryCatch {α : Type} (body : Except String α) (handler : String → Except String α) :
    Except String α :=
  match body with
  | Except.ok a => Except.ok a
  | Except.error e => handler e

/-- Parsed JSON body of a response to POST /upload, as read by the client:
`result.get("success")` truthiness, `result.get("file_id")` (absent ↦ `none`),
`result.get("message")`. -/
structure UploadBody where
  success : Bool
  file_id : Option String
  message : Option String
deriving Repr, DecidableEq

/-- Parsed JSON body of a response to the GET status endpoint, as read by the
client for informational display. -/
structure StatusBody where
  status : Option String
  progress : Option Nat
  current_stage : Option String
  error : Option String
deriving Repr, DecidableEq

/-- The file argument of `upload_and_process_file`: name, raw bytes
(`getvalue()`), and MIME type, as packed into the multipart request. -/
structure UploadInput where
  name : String
  content : List Nat
  mime : String
deriving Repr, DecidableEq

/-- One POST /upload request as issued by `upload_and_process_file`: the
multipart file triple plus the two form fields. -/
structure UploadRequest where
  filename : String
  content : List Nat
  mime : String
  doc_type : String
  doc_level : String
deriving Repr, DecidableEq

/-- The request `upload_and_process_file` builds from its arguments
(src/app.py lines 66 and 74-81). -/
def mkUploadRequest (file : UploadInput) (doc_type doc_level : String) : UploadRequest :=
  { filename := file.name, content := file.content, mime := file.mime,
    doc_type := doc_type, doc_level := doc_level }

/-- Response handling of `upload_and_process_file` (src/app.py lines 84-105):
status 200 with truthy `success` returns the parsed dict; status 200 with
falsy `success` returns None; non-200 tries to log `response.json()` under a
bare except and returns None; any exception reaching the outer handler
(including a `response.json()` raise on a 200) returns None. -/
def handle_upload_response (post : HttpResult UploadBody) :
    Except String (Option UploadBody) :=
  tryCatch
    (match post with
     | HttpResult.raises e => Except.error e
     | HttpResult.response status body _ =>
       if status == 200 then
         match body with
         | Except.error e => Except.error e
         | Except.ok result =>
           if result.success then Except.ok (some result) else Except.ok none
       else
         match tryCatch
             (match body with
              | Except.error e => Except.error e
              | Except.ok _ => Except.ok ())
             (fun _ => Except.ok ()) with
         | Except.ok _ => Except.ok none
         | Except.error e => Except.error e)
    (fun _ => Except.ok none)

/-- The whole of `upload_and_process_file` (src/app.py lines 62-105): it
unconditionally issues exactly one POST /upload built from its arguments —
there is no client-side validation — and handles the response. The second
component is the list of upload requests issued. -/
def upload_and_process_file (file : UploadInput) (doc_type doc_level : String)
    (backend : UploadRequest → HttpResult UploadBody) :
    Except String (Option UploadBody) × List UploadRequest :=
  let req := mkUploadRequest file doc_type doc_level
  (handle_upload_response (backend req), [req])

/-- One entry of `st.session_state.uploaded_files` (src/app.py lines 221-227).
`file_id` is `result.get("file_id")`, hence optional. -/
structure UploadRecord where
  file_id : Option String
  filename : String
  doc_type : String
  doc_level : String
  upload_time : Nat
deriving Repr, DecidableEq

/-- The Process File button handler (src/app.py lines 215-228): call
`upload_and_process_file`; if it returned a (truthy) result dict, append one
record built from `result.get("file_id")` and the inputs; otherwise leave the
session list unchanged. -/
def process_file_click (files : List UploadRecord) (file : UploadInput)
    (doc_type doc_level : String) (backend : UploadRequest → HttpResult UploadBody)
    (now : Nat) : List UploadRecord :=
  match (upload_and_process_file file doc_type doc_level backend).1 with
  | Except.ok (some result) =>
      files ++ [{ file_id := result.file_id, filename := file.name,
                  doc_type := doc_type, doc_level := doc_level, upload_time := now }]
  | _ => files

/-- The whole of `check_documentation_exists` (src/app.py lines 107-134):
GET the documentation existence endpoint; status 200 returns True; otherwise
a best-effort GET of the status endpoint is attempted inside its own
try/except (its body parsed only when its status is 200) and False is
returned; any exception from the existence call returns False. -/
def check_documentation_exists (exist : HttpResult Unit)
    (probe : HttpResult StatusBody) : Except String Bool :=
  tryCatch
    (match exist with
     | HttpResult.raises e => Except.error e
     | HttpResult.response status _ _ =>
       if status == 200 then Except.ok true
       else
         match tryCatch
             (match probe with
              | HttpResult.raises e => Except.error e
              | HttpResult.response pstatus pbody _ =>
                if pstatus == 200 then
                  match pbody with
                  | Except.error e => Except.error e
                  | Except.ok _ => Except.ok ()
                else Except.ok ())
             (fun _ => Except.ok ()) with
         | Except.ok _ => Except.ok false
         | Except.error e => Except.error e)
    (fun _ => Except.ok false)

/-- The whole of `get_pdf_content` (src/app.py lines 136-144):
GET the download endpoint with format pdf; on status 200 return
`response.content`, on any other status return None, on any exception
(bare except) return None. -/
def get_pdf_content (download : HttpResult Unit) :
    Except String (Option (List Nat)) :=
  tryCatch
    (match download with
     | HttpResult.raises e => Except.error e
     | HttpResult.response status _ content =>
       if status == 200 then Except.ok (some content) else Except.ok none)
    (fun _ => Except.ok none)

/-- The boolean the render loop sees from `check_documentation_exists`
(an exception would surface as an uncaught error; it is proven never to
occur, and mapped to false here). -/
def checkRun (exist : HttpResult Unit) (probe : HttpResult StatusBody) : Bool :=
  match check_documentation_exists exist probe with
  | Except.ok b => b
  | Except.error _ => false

/-- The value the render loop sees from `get_pdf_content` (same convention
as `checkRun`). -/
def pdfRun (download : HttpResult Unit) : Option (List Nat) :=
  match get_pdf_content download with
  | Except.ok v => v
  | Except.error _ => none

/-- Python truthiness of `pdf_content` at src/app.py line 252: None and the
empty byte string are falsy, a non-empty byte string is truthy. -/
def pyTruthyBytes : Option (List Nat) → Bool
  | some c => !c.isEmpty
  | none => false

/-- Readiness as observed at poll number `t` of a session, where `exist t`
and `probe t` are the backend responses to the two GETs made at poll `t`
(the client keeps no readiness state of its own). -/
def isReadyAt (exist : Nat → HttpResult Unit) (probe : Nat → HttpResult StatusBody)
    (t : Nat) : Bool :=
  checkRun (exist t) (probe t)

/-- What the per-record render branch produces (src/app.py lines 249-271):
not-ready spinner, ready with download buttons and PDF preview, or ready
with the "PDF content not available" warning and neither buttons nor
preview. -/
inductive RenderOutcome where
  | notReady
  | readyWithPdf (content : List Nat)
  | readyNoPdf
deriving Repr, DecidableEq

/-- The per-record render branch (src/app.py lines 249-271): check existence;
if ready, fetch the PDF; render buttons and preview only when the fetched
content is truthy, else the warning branch. -/
def render_record (exist : HttpResult Unit) (probe : HttpResult StatusBody)
    (download : HttpResult Unit) : RenderOutcome :=
  if checkRun exist probe then
    let pdf := pdfRun download
    if pyTruthyBytes pdf then RenderOutcome.readyWithPdf (pdf.getD [])
    else RenderOutcome.readyNoPdf
  else RenderOutcome.notReady

/-- One user-visible step of a session that can touch the session list:
a Process File click (src/app.py lines 215-228), or a render/refresh pass
(src/app.py lines 230-271), which only reads the list. -/
inductive Event where
  | click (file : UploadInput) (doc_type doc_level : String)
      (backend : UploadRequest → HttpResult UploadBody) (now : Nat)
  | render

/-- Effect of one event on `st.session_state.uploaded_files`: a click runs
the button handler; a render pass leaves the list unchanged. -/
def step (files : List UploadRecord) : Event → List UploadRecord
  | Event.click file dt dl backend now => process_file_click files file dt dl backend now
  | Event.render => files

/-- A failed submission as the spec enumerates it: the POST raised, or the
status is not 200, or the 200 body is malformed, or the body parses with a
falsy success flag. -/
def failedUploadResp (r : HttpResult UploadBody) : Prop :=
  match r with
  | HttpResult.raises _ => True
  | HttpResult.response s j _ =>
      s ≠ 200 ∨ (∃ e, j = Except.error e) ∨ (∃ b, j = Except.ok b ∧ b.success = false)

/-- The docType enumeration offered by the sidebar selectbox
(src/app.py lines 176-180). -/
def docTypes : List String := ["BRD", "SOW", "FRD"]

/-- The docLevel enumeration offered by the sidebar selectbox
(src/app.py lines 200-204). -/
def docLevels : List String := ["Simple", "Intermediate", "Advanced"]

/- Shared helper lemmas. -/

/-- Response handling of the upload call never lets an exception escape. -/
theorem handle_upload_response_total (post : HttpResult UploadBody) :
    ∃ v, handle_upload_response post = Except.ok v := by
  rcases post with e | ⟨s, j, c⟩
  · exact ⟨none, rfl⟩
  · rcases j with e | b
    · by_cases hs : (s == 200) = true <;>
        simp [handle_upload_response, tryCatch, hs]
    · by_cases hs : (s == 200) = true <;> by_cases hb : b.success = true <;>
        simp [handle_upload_response, tryCatch, hs, hb]

/-- On a 200 response whose body parses with a truthy success flag, the
upload helper returns the parsed body. -/
theorem handle_upload_response_success (b : UploadBody) (c : List Nat)
    (hb : b.success = true) :
    handle_upload_response (HttpResult.response 200 (Except.ok b) c) =
      Except.ok (some b) := by
  simp [handle_upload_response, tryCatch, hb]

/-- On any failed submission response, the upload helper returns None
without an escaping exception. -/
theorem handle_upload_response_failed (post : HttpResult UploadBody)
    (hfail : failedUploadResp post) :
    handle_upload_response post = Except.ok none := by
  rcases post with e | ⟨s, j, c⟩
  · rfl
  · simp only [failedUploadResp] at hfail
    rcases hfail with hs | ⟨e, he⟩ | ⟨b, hb, hbs⟩
    · have hs' : (s == 200) = false := by simpa using hs
      rcases j with e | b <;> simp [handle_upload_response, tryCatch, hs']
    · subst he
      by_cases hs : (s == 200) = true <;>
        simp [handle_upload_response, tryCatch, hs]
    · subst hb
      by_cases hs : (s == 200) = true <;>
        simp [handle_upload_response, tryCatch, hs, hbs]

/-- The existence check returns, without an escaping exception, exactly the
boolean "the existence response had status 200", whatever the probe did. -/
theorem check_documentation_exists_eq (exist : HttpResult Unit)
    (probe : HttpResult StatusBody) :
    check_documentation_exists exist probe = Except.ok (respStatus200 exist) := by
  rcases exist with e | ⟨s, j, c⟩
  · rfl
  · rcases probe with pe | ⟨ps, pj, pc⟩
    · by_cases hs : (s == 200) = true <;>
        simp [check_documentation_exists, tryCatch, respStatus200, hs]
    · rcases pj with pe | pb <;>
        by_cases hs : (s == 200) = true <;> by_cases hps : (ps == 200) = true <;>
          simp [check_documentation_exists, tryCatch, respStatus200, hs, hps]

/- Concrete fixtures used by witnesses and counterexamples. -/

/-- A demo upload file. -/
def demoFile : UploadInput :=
  { name := "demo.mp3", content := [1, 2, 3], mime := "audio/mpeg" }

/-- The SOW docType choice. -/
def sowType : String := "SOW"

/-- The Advanced docLevel choice. -/
def advancedLevel : String := "Advanced"

/-- The BRD docType choice. -/
def brdType : String := "BRD"

/-- The Simple docLevel choice. -/
def simpleLevel : String := "Simple"

/-- A well-formed success body carrying file id abc123. -/
def okBody : UploadBody :=
  { success := true, file_id := some ("abc123"), message := none }

/-- A backend answering every upload with 200 and `okBody`. -/
def okBackend : UploadRequest → HttpResult UploadBody :=
  fun _ => HttpResult.response 200 (Except.ok okBody) []

/-- A 200 success body whose file_id field is the empty string. -/
def emptyIdBody : UploadBody :=
  { success := true, file_id := some (""), message := none }

/-- A backend answering every upload with 200, success true, and an empty
file_id. -/
def emptyIdBackend : UploadRequest → HttpResult UploadBody :=
  fun _ => HttpResult.response 200 (Except.ok emptyIdBody) []

/-- A backend answering every upload with status 500 and a malformed body. -/
def failBackend : UploadRequest → HttpResult UploadBody :=
  fun _ => HttpResult.response 500 (Except.error ("server error")) []

/- Claim theorems. -/

/-- C1 counterexample: a backend that answers 200 with success true and an
empty-string file_id is a successful submission by the claim's definition
(status 200, success true); exactly one record is appended and the list
grows by one, but the appended record's fileId is the empty string — the
client stores `result.get("file_id")` without any non-emptiness check. -/
theorem c1_counterexample :
    process_file_click [] demoFile brdType simpleLevel emptyIdBackend 0 =
      [{ file_id := some (""), filename := demoFile.name, doc_type := brdType,
         doc_level := simpleLevel, upload_time := 0 }] ∧
    (process_file_click [] demoFile brdType simpleLevel emptyIdBackend 0).length = 1 :=
  ⟨rfl, rfl⟩

/-- C1 (amended): for every (file, docType, docLevel) triple, a successful
submission (200 response with a truthy success flag) appends exactly one new
UploadRecord and the session list length increases by exactly one; the
record's fileId is exactly the response's file_id field — non-empty whenever
the backend supplies a non-empty file_id, but never checked by the client. -/
theorem c1_success_appends_one (files : List UploadRecord) (file : UploadInput)
    (dt dl : String) (backend : UploadRequest → HttpResult UploadBody) (now : Nat)
    (b : UploadBody) (c : List Nat)
    (hresp : backend (mkUploadRequest file dt dl) =
        HttpResult.response 200 (Except.ok b) c)
    (hsucc : b.success = true) :
    process_file_click files file dt dl backend now =
      files ++ [{ file_id := b.file_id, filename := file.name, doc_type := dt,
                  doc_level := dl, upload_time := now }] ∧
    (process_file_click files file dt dl backend now).length = files.length + 1 := by
  have h : (upload_and_process_file file dt dl backend).1 = Except.ok (some b) := by
    simp [upload_and_process_file, hresp, handle_upload_response_success b c hsucc]
  refine ⟨?_, ?_⟩ <;> simp [process_file_click, h]

/-- C1 witness: a concrete successful submission appends one record with
fileId abc123. -/
theorem c1_witness :
    process_file_click [] demoFile sowType advancedLevel okBackend 7 =
      [{ file_id := some ("abc123"), filename := demoFile.name, doc_type := sowType,
         doc_level := advancedLevel, upload_time := 7 }] ∧
    (process_file_click [] demoFile sowType advancedLevel okBackend 7).length = 1 := by
  have h := c1_success_appends_one [] demoFile sowType advancedLevel okBackend 7
    okBody [] rfl rfl
  simpa [okBody] using h

/-- C2: every failed submission — raised network call, non-200 status,
malformed 200 body, or a 200 body with a falsy success flag — makes
upload_and_process_file return None (a failure result, no exception), no
record is created, and the session list is unchanged. -/
theorem c2_failed_submission_unchanged (files : List UploadRecord)
    (file : UploadInput) (dt dl : String)
    (backend : UploadRequest → HttpResult UploadBody) (now : Nat)
    (hfail : failedUploadResp (backend (mkUploadRequest file dt dl))) :
    (upload_and_process_file file dt dl backend).1 = Except.ok none ∧
    process_file_click files file dt dl backend now = files := by
  have h : (upload_and_process_file file dt dl backend).1 = Except.ok none := by
    simp [upload_and_process_file, handle_upload_response_failed _ hfail]
  exact ⟨h, by simp [process_file_click, h]⟩

/-- C2 witness: a concrete 500 response yields None and leaves the empty
session list empty. -/
theorem c2_witness :
    (upload_and_process_file demoFile brdType simpleLevel failBackend).1 =
      Except.ok none ∧
    process_file_click [] demoFile brdType simpleLevel failBackend 3 = [] :=
  c2_failed_submission_unchanged [] demoFile brdType simpleLevel failBackend 3
    (Or.inr (Or.inl ⟨"server error", rfl⟩))

/-- C3: check_documentation_exists returns (normally) true exactly when the
existence GET returned status 200; any other status or a raised call yields
false, whatever the status probe did. -/
theorem c3_ready_iff_status_200 (exist : HttpResult Unit)
    (probe : HttpResult StatusBody) :
    check_documentation_exists exist probe = Except.ok (respStatus200 exist) ∧
    (checkRun exist probe = true ↔ ∃ j c, exist = HttpResult.response 200 j c) := by
  refine ⟨check_documentation_exists_eq exist probe, ?_⟩
  unfold checkRun
  rw [check_documentation_exists_eq]
  rcases exist with e | ⟨s, j, c⟩
  · simp [respStatus200]
  · simp [respStatus200]

/-- C4: get_pdf_content returns exactly the bytes of a 200 download response
and None on any other response or a raised call; the render pass that
performs the fetch never mutates the session list, and the result is a pure
function of the response, so repeated calls against an unchanged backend
return the same bytes. -/
theorem c4_fetch_exact_bytes (download : HttpResult Unit) :
    (∀ j c, download = HttpResult.response 200 j c →
        get_pdf_content download = Except.ok (some c)) ∧
    (∀ e, download = HttpResult.raises e →
        get_pdf_content download = Except.ok none) ∧
    (∀ s j c, download = HttpResult.response s j c → s ≠ 200 →
        get_pdf_content download = Except.ok none) ∧
    (∀ files : List UploadRecord, step files Event.render = files) := by
  refine ⟨?_, ?_, ?_, fun _ => rfl⟩
  · rintro j c rfl
    simp [get_pdf_content, tryCatch]
  · rintro e rfl
    rfl
  · rintro s j c rfl hs
    have hs' : (s == 200) = false := by simpa using hs
    simp [get_pdf_content, tryCatch, hs']

/-- The spec's example PDF byte sequence. -/
def pdfBytes : List Nat := [37, 80, 68, 70, 45, 49, 46, 52]

/-- C4 witness: a concrete 200 download returns exactly its bytes. -/
theorem c4_witness :
    get_pdf_content (HttpResult.response 200 (Except.ok ()) pdfBytes) =
      Except.ok (some pdfBytes) :=
  (c4_fetch_exact_bytes (HttpResult.response 200 (Except.ok ()) pdfBytes)).1
    (Except.ok ()) pdfBytes rfl

/-- An empty file with a name and MIME outside the supported media classes. -/
def c5File : UploadInput := { name := "notes.txt", content := [], mime := "" }

/-- A docType outside the enumeration. -/
def badDocType : String := "XYZ"

/-- A docLevel outside the enumeration. -/
def badDocLevel : String := "Ultra"

/-- A success body used by the C5 backend. -/
def c5Body : UploadBody :=
  { success := true, file_id := some ("id-1"), message := none }

/-- A backend accepting every upload. -/
def c5Backend : UploadRequest → HttpResult UploadBody :=
  fun _ => HttpResult.response 200 (Except.ok c5Body) []

/-- C5 counterexample: with an empty file and docType/docLevel outside their
enumerations, upload_and_process_file still issues the POST carrying exactly
those values and even returns success — it performs no validation at all
before the network call. -/
theorem c5_counterexample :
    c5File.content = [] ∧ badDocType ∉ docTypes ∧ badDocLevel ∉ docLevels ∧
    (upload_and_process_file c5File badDocType badDocLevel c5Backend).2 =
      [mkUploadRequest c5File badDocType badDocLevel] ∧
    (upload_and_process_file c5File badDocType badDocLevel c5Backend).1 =
      Except.ok (some c5Body) :=
  ⟨rfl, by decide, by decide, rfl, rfl⟩

/-- C5 (amended): upload_and_process_file performs no client-side validation:
for every (file, docType, docLevel) whatsoever it issues exactly one POST
/upload built verbatim from its arguments; membership of docType and docLevel
in their enumerations and the media-extension filter are enforced only by the
sidebar widgets, not by this function. -/
theorem c5_no_validation (file : UploadInput) (dt dl : String)
    (backend : UploadRequest → HttpResult UploadBody) :
    (upload_and_process_file file dt dl backend).2 = [mkUploadRequest file dt dl] :=
  rfl

/-- C6: the client keeps no readiness state: each poll reports exactly
whether the existence endpoint returned 200 at that poll; hence readiness is
false on every poll before the endpoint first returns 200, true at that
poll, and — the endpoint continuing to return 200 once it has (the spec's
immutable-artifact assumption) — it never reverts to false in the session. -/
theorem c6_ready_monotone (exist : Nat → HttpResult Unit)
    (probe : Nat → HttpResult StatusBody)
    (hmono : ∀ s t : Nat, s ≤ t → respStatus200 (exist s) = true →
        respStatus200 (exist t) = true) :
    (∀ t, isReadyAt exist probe t = respStatus200 (exist t)) ∧
    (∀ s t : Nat, s ≤ t → isReadyAt exist probe s = true →
        isReadyAt exist probe t = true) := by
  have key : ∀ t, isReadyAt exist probe t = respStatus200 (exist t) := by
    intro t
    unfold isReadyAt checkRun
    rw [check_documentation_exists_eq]
  refine ⟨key, fun s t hst hs => ?_⟩
  rw [key s] at hs
  rw [key t]
  exact hmono s t hst hs

/-- Existence responses of a session whose backend answers 404 on polls 0
and 1 and 200 from poll 2 on. -/
def wExist (t : Nat) : HttpResult Unit :=
  if 2 ≤ t then HttpResult.response 200 (Except.ok ()) []
  else HttpResult.response 404 (Except.error ("not found")) []

/-- A status probe that always raises. -/
def wProbe (_ : Nat) : HttpResult StatusBody :=
  HttpResult.raises ("connection refused")

/-- C6 witness: against `wExist`, readiness is false at poll 0 and true at
polls 2 and 5. -/
theorem c6_witness :
    isReadyAt wExist wProbe 0 = false ∧ isReadyAt wExist wProbe 2 = true ∧
    isReadyAt wExist wProbe 5 = true := by
  have h := c6_ready_monotone wExist wProbe (fun s t hst hs => by
    by_cases h2 : 2 ≤ s
    · have h2t : 2 ≤ t := le_trans h2 hst
      simp [wExist, h2t, respStatus200]
    · simp [wExist, h2, respStatus200] at hs)
  refine ⟨?_, ?_, ?_⟩
  · rw [h.1 0]
    decide
  · rw [h.1 2]
    decide
  · refine h.2 2 5 (by decide) ?_
    rw [h.1 2]
    decide

/-- C7: when the existence check is not 200, the probe outcome — whatever it
is, a raised call included — does not change the tracking result: the check
returns false normally (no escaping exception) and its value is independent
of the probe. -/
theorem c7_probe_best_effort (exist : HttpResult Unit)
    (hnot : respStatus200 exist = false) :
    ∀ probe probe' : HttpResult StatusBody,
      check_documentation_exists exist probe = Except.ok false ∧
      check_documentation_exists exist probe =
        check_documentation_exists exist probe' := by
  intro probe probe'
  have h1 := check_documentation_exists_eq exist probe
  have h2 := check_documentation_exists_eq exist probe'
  rw [hnot] at h1 h2
  exact ⟨h1, by rw [h1, h2]⟩

/-- A 404 existence response with an unparseable body. -/
def notFound404 : HttpResult Unit :=
  HttpResult.response 404 (Except.error ("no body")) []

/-- C7 witness: a 404 existence response with a raised status probe still
yields a normal false. -/
theorem c7_witness :
    check_documentation_exists notFound404 (HttpResult.raises ("timeout")) =
      Except.ok false :=
  (c7_probe_best_effort notFound404 rfl (HttpResult.raises ("timeout"))
      (HttpResult.raises ("timeout"))).1

/-- C8: the session list is append-only: every event either leaves the list
unchanged or appends exactly one record at the end, so the records already
present survive unchanged and in insertion order as a prefix of the new
list, and nothing is ever deleted or edited. -/
theorem c8_append_only (files : List UploadRecord) (e : Event) :
    (step files e).take files.length = files ∧
    (step files e = files ∨ ∃ r, step files e = files ++ [r]) := by
  have h : step files e = files ∨ ∃ r, step files e = files ++ [r] := by
    cases e with
    | render => exact Or.inl rfl
    | click file dt dl backend now =>
      simp only [step, process_file_click]
      cases hv : (upload_and_process_file file dt dl backend).1 with
      | error err => exact Or.inl rfl
      | ok v =>
        cases v with
        | none => exact Or.inl rfl
        | some r => exact Or.inr ⟨_, rfl⟩
  refine ⟨?_, h⟩
  rcases h with h | ⟨r, h⟩ <;> rw [h] <;> simp [List.take_left]

/-- C9: no backend behaviour makes any of the three operations raise an
uncaught exception: upload_and_process_file, check_documentation_exists and
get_pdf_content each return a normal value for every response, raised calls
and malformed bodies included. -/
theorem c9_no_uncaught (file : UploadInput) (dt dl : String)
    (backend : UploadRequest → HttpResult UploadBody)
    (exist : HttpResult Unit) (probe : HttpResult StatusBody)
    (download : HttpResult Unit) :
    (∃ v, (upload_and_process_file file dt dl backend).1 = Except.ok v) ∧
    (∃ b, check_documentation_exists exist probe = Except.ok b) ∧
    (∃ p, get_pdf_content download = Except.ok p) := by
  refine ⟨?_, ⟨_, check_documentation_exists_eq exist probe⟩, ?_⟩
  · obtain ⟨v, hv⟩ := handle_upload_response_total (backend (mkUploadRequest file dt dl))
    exact ⟨v, by simpa [upload_and_process_file] using hv⟩
  · rcases download with e | ⟨s, j, c⟩
    · exact ⟨none, rfl⟩
    · by_cases hs : (s == 200) = true
      · exact ⟨some c, by simp [get_pdf_content, tryCatch, hs]⟩
      · exact ⟨none, by simp [get_pdf_content, tryCatch, hs]⟩

/-- C10: when the existence check reports ready and the download endpoint
answers 200 with a zero-length body, get_pdf_content returns the empty byte
string, yet the render branch takes the "PDF content not available" warning
path and renders neither preview nor download buttons — the same outcome as
a failed fetch. -/
theorem c10_empty_pdf_warning (exist : HttpResult Unit)
    (probe : HttpResult StatusBody) (j : Except String Unit)
    (hready : respStatus200 exist = true) :
    get_pdf_content (HttpResult.response 200 j []) = Except.ok (some []) ∧
    render_record exist probe (HttpResult.response 200 j []) =
      RenderOutcome.readyNoPdf ∧
    render_record exist probe (HttpResult.raises ("fetch failed")) =
      RenderOutcome.readyNoPdf := by
  have hc : checkRun exist probe = true := by
    unfold checkRun
    rw [check_documentation_exists_eq, hready]
  refine ⟨by simp [get_pdf_content, tryCatch], ?_, ?_⟩ <;>
    simp [render_record, hc, pdfRun, get_pdf_content, tryCatch, pyTruthyBytes]

/-- A ready existence response. -/
def okExist : HttpResult Unit := HttpResult.response 200 (Except.ok ()) []

/-- C10 witness: a concrete ready record whose 200 download body is empty
takes the warning branch. -/
theorem c10_witness :
    render_record okExist (HttpResult.raises ("down"))
        (HttpResult.response 200 (Except.ok ()) []) = RenderOutcome.readyNoPdf :=
  (c10_empty_pdf_warning okExist (HttpResult.raises ("down")) (Except.ok ()) rfl).2.1

end BADoc
